import Mathlib

/-!
Shallow embedding of `scraper.py` (IMP Concerts calendar scraper) and proofs
about its extraction, date-normalization, identity and calendar-building logic.

Conventions of the embedding:
* Python `str` values are Lean `String`s; operations such as `str.strip`,
  `str.lower`, `str.title`, slicing `[:3]` and the concrete regular
  expressions used by the scraper are implemented here over `String.data`
  (the inputs of interest are handled exactly as CPython handles them; the
  regular expressions are hand-compiled, see the comments at each one).
* `datetime` values are the `PyDateTime` structure below; naive comparison
  is lexicographic on the fields, as in CPython.  Construction validity
  (`ValueError` on out-of-range fields) is `mkDatetimeDC`, which returns
  `none` exactly when the CPython constructor raises.
* `datetime.now()` is threaded through as an explicit `now : PyDateTime`
  parameter (the source calls it during year inference).
* The `ZoneInfo("America/New_York")` offset used by `isoformat` is computed
  from the post-2007 US DST rule (second Sunday of March 02:00 to first
  Sunday of November 02:00); within the one-hour gap/fold windows the
  `fold=0` convention of PEP 495 is followed.
* BeautifulSoup selector queries are the black-box markup boundary: an
  `EventContent` stores, for each selector the source uses, the result of
  that query (`none` when `select_one` finds nothing), and `Elem.text`
  stores the already-computed `get_text(strip=True)` of the element.
-/

set_option maxRecDepth 8000

namespace IMPCal

/-! ## Character classes and small string helpers -/

/-- ASCII digit test, the `\d` class for the scraper's ASCII inputs. -/
def isDigitCh (c : Char) : Bool := '0' ≤ c && c ≤ '9'

/-- Python `\s` class (ASCII part): space, tab, newline, carriage return,
vertical tab, form feed. -/
def isSpaceCh (c : Char) : Bool :=
  c = ' ' || c = '\t' || c = '\n' || c = '\r' || c = '\x0b' || c = '\x0c'

/-- ASCII letter test. -/
def isAlphaCh (c : Char) : Bool := ('a' ≤ c && c ≤ 'z') || ('A' ≤ c && c ≤ 'Z')

/-- Python `\w` class (ASCII part): letters, digits and underscore. -/
def isWordCh (c : Char) : Bool := isAlphaCh c || isDigitCh c || c = '_'

/-- Numeric value of an ASCII digit character. -/
def dv (c : Char) : Nat := c.toNat - 48

/-- ASCII lower-casing of one character, as Python `str.lower` does on ASCII. -/
def lowerCh (c : Char) : Char :=
  if 'A' ≤ c && c ≤ 'Z' then Char.ofNat (c.toNat + 32) else c

/-- ASCII upper-casing of one character. -/
def upperCh (c : Char) : Char :=
  if 'a' ≤ c && c ≤ 'z' then Char.ofNat (c.toNat - 32) else c

/-- Python `str.lower()` (ASCII). -/
def lowerStr (s : String) : String := ⟨s.data.map lowerCh⟩

/-- Python `str.strip()`: drop leading and trailing whitespace. -/
def pyStrip (s : String) : String :=
  ⟨((s.data.dropWhile isSpaceCh).reverse.dropWhile isSpaceCh).reverse⟩

/-- Worker for `pyTitle`: the boolean records whether the previous character
was a cased (alphabetic) one. -/
def pyTitleGo : Bool → List Char → List Char
  | _, [] => []
  | prevAlpha, c :: t =>
    (if isAlphaCh c then (if prevAlpha then lowerCh c else upperCh c) else c)
      :: pyTitleGo (isAlphaCh c) t

/-- Python `str.title()` (ASCII): uppercase a letter that follows a
non-letter, lowercase the other letters. -/
def pyTitle (s : String) : String := ⟨pyTitleGo false s.data⟩

/-- Python slicing `s[:3]`. -/
def take3 (s : String) : String := ⟨s.data.take 3⟩

/-- Whether `p` is a prefix of `l`. -/
def listIsPrefix : List Char → List Char → Bool
  | [], _ => true
  | _ :: _, [] => false
  | p :: ps, c :: cs => p = c && listIsPrefix ps cs

/-- Python `s.startswith(pre)`. -/
def pyStartsWith (s pre : String) : Bool := listIsPrefix pre.data s.data

/-- Python `sep.join(xs)`. -/
def joinSep (sep : String) : List String → String
  | [] => ""
  | [x] => x
  | x :: y :: xs => x ++ sep ++ joinSep sep (y :: xs)

/-! ## The `datetime` model -/

/-- A CPython `datetime` value (the timezone, when one is attached by the
scraper, is always `ZoneInfo("America/New_York")`, so it is not stored). -/
structure PyDateTime where
  year : Nat
  month : Nat
  day : Nat
  hour : Nat
  minute : Nat
  second : Nat
  microsecond : Nat
  deriving DecidableEq, Repr

/-- Naive `datetime` comparison `a < b`: lexicographic on the fields, as in
CPython. -/
def naiveLt (a b : PyDateTime) : Bool :=
  (a.year < b.year) ||
  (a.year == b.year && ((a.month < b.month) ||
  (a.month == b.month && ((a.day < b.day) ||
  (a.day == b.day && ((a.hour < b.hour) ||
  (a.hour == b.hour && ((a.minute < b.minute) ||
  (a.minute == b.minute && ((a.second < b.second) ||
  (a.second == b.second && a.microsecond < b.microsecond)))))))))))

/-- Gregorian leap year. -/
def isLeap (y : Nat) : Bool := y % 4 == 0 && (y % 100 != 0 || y % 400 == 0)

/-- Month lengths for a leap (`true`) or common (`false`) year. -/
def monthLen (l : Bool) (m : Nat) : Nat :=
  (if l then [31, 29, 31, 30, 31, 30, 31, 31, 30, 31, 30, 31]
   else [31, 28, 31, 30, 31, 30, 31, 31, 30, 31, 30, 31]).getD (m - 1) 0

/-- Number of days in month `m` of year `y`. -/
def daysInMonth (y m : Nat) : Nat := monthLen (isLeap y) m

/-- The year/month/day validity check of the CPython `datetime` constructor
(`MINYEAR = 1`, `MAXYEAR = 9999`). -/
def validDate (y m d : Nat) : Bool :=
  1 ≤ y && y ≤ 9999 && 1 ≤ m && m ≤ 12 && 1 ≤ d && d ≤ daysInMonth y m

/-- `datetime(y, mo, d, h, mi, tzinfo=DC_TZ)`: `some` when the constructor
succeeds, `none` when it raises `ValueError`. -/
def mkDatetimeDC (y mo d h mi : Nat) : Option PyDateTime :=
  if validDate y mo d && h ≤ 23 && mi ≤ 59 then some ⟨y, mo, d, h, mi, 0, 0⟩
  else none

/-! ## America/New_York offset (for `isoformat`) -/

/-- Day of week by Sakamoto's method, `0 = Sunday`. -/
def dayOfWeek (y m d : Nat) : Nat :=
  let t := [0, 3, 2, 5, 0, 3, 5, 1, 4, 6, 2, 4]
  let y := if m < 3 then y - 1 else y
  (y + y / 4 - y / 100 + y / 400 + t.getD (m - 1) 0 + d) % 7

/-- Day of month of the first Sunday of month `m` of year `y`. -/
def firstSundayDay (y m : Nat) : Nat := 1 + (7 - dayOfWeek y m 1) % 7

/-- Whether US Eastern daylight saving time is in effect at the given wall
time (post-2007 rule: second Sunday of March 02:00 to first Sunday of
November 02:00).  Inside the spring gap (02:00–02:59 of the start day) and
the autumn fold (01:00–01:59 of the end day) this follows `fold=0` of
PEP 495, i.e. the offset in effect before the transition. -/
def isDSTEastern (dt : PyDateTime) : Bool :=
  if 4 ≤ dt.month && dt.month ≤ 10 then true
  else if dt.month == 3 then
    let ss := 7 + firstSundayDay dt.year 3
    if dt.day < ss then false
    else if ss < dt.day then true
    else 3 ≤ dt.hour
  else if dt.month == 11 then
    let fs := firstSundayDay dt.year 11
    if dt.day < fs then true
    else if fs < dt.day then false
    else dt.hour < 2
  else false

/-- The UTC-offset suffix `ZoneInfo("America/New_York")` contributes to
`isoformat()`. -/
def utcOffsetStr (dt : PyDateTime) : String :=
  if isDSTEastern dt then "-04:00" else "-05:00"

/-- ASCII digit character of `n < 10`. -/
def digitCh (n : Nat) : Char := Char.ofNat (48 + n)

/-- Two-digit zero-padded decimal. -/
def pad2 (n : Nat) : String := ⟨[digitCh (n / 10 % 10), digitCh (n % 10)]⟩

/-- Four-digit zero-padded decimal. -/
def pad4 (n : Nat) : String :=
  ⟨[digitCh (n / 1000 % 10), digitCh (n / 100 % 10), digitCh (n / 10 % 10),
    digitCh (n % 10)]⟩

/-- Six-digit zero-padded decimal. -/
def pad6 (n : Nat) : String :=
  ⟨[digitCh (n / 100000 % 10), digitCh (n / 10000 % 10), digitCh (n / 1000 % 10),
    digitCh (n / 100 % 10), digitCh (n / 10 % 10), digitCh (n % 10)]⟩

/-- `datetime.isoformat()` of a DC-zone-aware value:
`YYYY-MM-DDTHH:MM:SS[.ffffff]-04:00` or `...-05:00`. -/
def isoformatDC (dt : PyDateTime) : String :=
  pad4 dt.year ++ "-" ++ pad2 dt.month ++ "-" ++ pad2 dt.day ++ "T" ++
  pad2 dt.hour ++ ":" ++ pad2 dt.minute ++ ":" ++ pad2 dt.second ++
  (if dt.microsecond == 0 then "" else "." ++ pad6 dt.microsecond) ++
  utcOffsetStr dt

/-! ## Hand-compiled regular expressions

The three patterns the scraper uses are built from the classes `\w`, `\s`,
`\d`, literal characters, `{1,2}`-bounded digit runs and a trailing
case-insensitive `am|pm`.  Because `\w`, `\s` and the literals `,` `:` are
pairwise disjoint character sets, shortening a greedy `\w+`/`\s+` run during
backtracking always leaves the next input character inside the same class and
therefore can never turn a failure into a success; the `\d{1,2}` runs are the
only place backtracking matters and it is performed explicitly (two digits
first, then one).  Hence the deterministic maximal-munch matchers below agree
with CPython `re` on every input.  `re.search` = try each start position from
the left; `re.match` = the start position only. -/

/-- Continuation of the time pattern after the hour digits and the colon:
exactly two minute digits, `\s*`, then case-insensitive `am|pm`.  Returns
`(hour, minute, group "H:MM", group "am|pm" as matched)`. -/
def timeAfterColon (h : Nat) (hchars : List Char) (cs : List Char) :
    Option (Nat × Nat × String × String) :=
  match cs with
  | m1 :: m2 :: rest =>
    if isDigitCh m1 && isDigitCh m2 then
      let rest := rest.dropWhile isSpaceCh
      match rest with
      | c1 :: c2 :: _ =>
        if (c1 = 'a' || c1 = 'A' || c1 = 'p' || c1 = 'P') && (c2 = 'm' || c2 = 'M') then
          some (h, 10 * dv m1 + dv m2,
                ⟨hchars ++ [':', m1, m2]⟩, ⟨[c1, c2]⟩)
        else none
      | _ => none
    else none
  | _ => none

/-- Attempt the pattern `(\d{1,2}):(\d{2})\s*(am|pm)` (equivalently
`(\d{1,2}:\d{2})\s*(am|pm)`, case-insensitive) at the start of `cs`:
the CPython-order attempt is two hour digits first, one on backtracking. -/
def timeAt (cs : List Char) : Option (Nat × Nat × String × String) :=
  let two := match cs with
    | a :: b :: ':' :: r2 =>
      if isDigitCh a && isDigitCh b then timeAfterColon (10 * dv a + dv b) [a, b] r2
      else none
    | _ => none
  match two with
  | some r => some r
  | none =>
    match cs with
    | a :: ':' :: r1 => if isDigitCh a then timeAfterColon (dv a) [a] r1 else none
    | _ => none

/-- `re.search` of the time pattern: first start position where `timeAt`
succeeds. -/
def timeSearchGo : List Char → Option (Nat × Nat × String × String)
  | [] => none
  | c :: t =>
    match timeAt (c :: t) with
    | some r => some r
    | none => timeSearchGo t

/-- `re.search(r"(\d{1,2}:\d{2})\s*(am|pm)", s, re.IGNORECASE)`. -/
def timeSearch (s : String) : Option (Nat × Nat × String × String) :=
  timeSearchGo s.data

/-- Attempt the pattern `(\w+),?\s+(\w+)\s+(\d{1,2})` at the start of `cs`;
returns the three groups (day as a number, `int` of one or two digits). -/
def dateTripleAt (cs : List Char) : Option (String × String × Nat) :=
  let w1 := cs.takeWhile isWordCh
  if w1.isEmpty then none else
  let r1 := cs.dropWhile isWordCh
  let r1 := match r1 with
    | ',' :: t => t
    | _ => r1
  let sp1 := r1.takeWhile isSpaceCh
  if sp1.isEmpty then none else
  let r2 := r1.dropWhile isSpaceCh
  let w2 := r2.takeWhile isWordCh
  if w2.isEmpty then none else
  let r3 := r2.dropWhile isWordCh
  let sp2 := r3.takeWhile isSpaceCh
  if sp2.isEmpty then none else
  let r4 := r3.dropWhile isSpaceCh
  match r4 with
  | d1 :: d2 :: _ =>
    if isDigitCh d1 then
      if isDigitCh d2 then some (⟨w1⟩, ⟨w2⟩, 10 * dv d1 + dv d2)
      else some (⟨w1⟩, ⟨w2⟩, dv d1)
    else none
  | [d1] => if isDigitCh d1 then some (⟨w1⟩, ⟨w2⟩, dv d1) else none
  | [] => none

/-- `re.search` scan for the date triple pattern. -/
def dateTripleSearchGo : List Char → Option (String × String × Nat)
  | [] => none
  | c :: t =>
    match dateTripleAt (c :: t) with
    | some r => some r
    | none => dateTripleSearchGo t

/-- `re.search(r"(\w+),?\s+(\w+)\s+(\d{1,2})", s)`. -/
def dateTripleSearch (s : String) : Option (String × String × Nat) :=
  dateTripleSearchGo s.data

/-- Attempt `\d{4}` at the start of `cs`. -/
def fourDigitAt (cs : List Char) : Option Nat :=
  match cs with
  | a :: b :: c :: d :: _ =>
    if isDigitCh a && isDigitCh b && isDigitCh c && isDigitCh d then
      some (1000 * dv a + 100 * dv b + 10 * dv c + dv d)
    else none
  | _ => none

/-- `re.search` scan for `\d{4}`. -/
def fourDigitSearchGo : List Char → Option Nat
  | [] => none
  | c :: t =>
    match fourDigitAt (c :: t) with
    | some r => some r
    | none => fourDigitSearchGo t

/-- `re.search(r"(\d{4})", s)`, returning `int` of the first group. -/
def fourDigitSearch (s : String) : Option Nat := fourDigitSearchGo s.data

/-- `re.split(r"[•,&]", s)` on the character list: pieces between separator
occurrences, empty pieces kept (as `re.split` keeps them). -/
def splitOnSeps : List Char → List (List Char)
  | [] => [[]]
  | c :: t =>
    if c = '•' || c = ',' || c = '&' then [] :: splitOnSeps t
    else
      match splitOnSeps t with
      | [] => [[c]]
      | h :: r => (c :: h) :: r

/-! ## The Date Normalizer (`parse_date`) -/

/-- `datetime.strptime(name, "%b").month`: case-insensitive full match
against the twelve English month abbreviations; `none` models the
`ValueError`. -/
def monthAbbrev (s : String) : Option Nat :=
  (([("jan", 1), ("feb", 2), ("mar", 3), ("apr", 4), ("may", 5), ("jun", 6),
     ("jul", 7), ("aug", 8), ("sep", 9), ("oct", 10), ("nov", 11),
     ("dec", 12)] : List (String × Nat)).find?
    (fun p => p.1 = lowerStr s)).map (fun p => p.2)

/-- The door-time block at the top of `parse_date`: default 20:00, else
`re.match` the time pattern against the door-time string and convert to
24-hour form (`pm` adds 12 except for 12, `12 am` becomes 0). -/
def doorHourMinute (doorTime : Option String) : Nat × Nat :=
  match doorTime with
  | none => (20, 0)
  | some dt =>
    match timeAt dt.data with
    | none => (20, 0)
    | some (h, m, _, ap) =>
      if lowerStr ap = "pm" && h ≠ 12 then (h + 12, m)
      else if lowerStr ap = "am" && h == 12 then (0, m)
      else (h, m)

/-- The year-resolution block of `parse_date`: a literal 4-digit year when
`re.search(r"(\d{4})")` finds one; otherwise the current year, bumped by one
when `datetime(year, month, day)` both constructs and compares strictly
before `datetime.now()` (a `ValueError` from `strptime` or from the
constructor leaves the year unchanged, as the `except ValueError: pass`
does).  `stripped` is the already-stripped date string. -/
def resolveYear (now : PyDateTime) (stripped : String) (monthName : String)
    (day : Nat) : Nat :=
  match fourDigitSearch stripped with
  | some y => y
  | none =>
    let y := now.year
    match monthAbbrev (take3 monthName) with
    | some m =>
      if validDate y m day && naiveLt ⟨y, m, day, 0, 0, 0, 0⟩ now then y + 1 else y
    | none => y

/-- `parse_date(date_str, door_time)` of the source, with `datetime.now()`
passed in as `now`. -/
def parse_date (now : PyDateTime) (dateStr : String) (doorTime : Option String) :
    Option PyDateTime :=
  match dateTripleSearch (pyStrip dateStr) with
  | none => none
  | some (_, monthName, day) =>
    match monthAbbrev (take3 monthName) with
    | some month =>
      mkDatetimeDC (resolveYear now (pyStrip dateStr) monthName day) month day
        (doorHourMinute doorTime).1 (doorHourMinute doorTime).2
    | none => none

/-! ## The Event Extractor (`parse_event`) and the extraction loop -/

/-- A markup element as the scraper observes it through the BeautifulSoup
boundary: `text` is the value of `get_text(strip=True)` (which may be empty,
e.g. for an element with no text nodes), `classes` the `class` attribute
token list. -/
structure Elem where
  text : String
  classes : List String
  deriving DecidableEq, Repr

/-- One `event__content` block, recorded as the results of the five
`select_one` queries `parse_event` performs on it (`none` = no match):
`h3`, `a[href]` (its `href` attribute), `h4`, `.event__doors`, and
`[class*='badge venue-']`. -/
structure EventContent where
  h3 : Option Elem
  aHref : Option String
  h4 : Option Elem
  doors : Option Elem
  venueBadge : Option Elem
  deriving DecidableEq, Repr

/-- The concert dictionary `parse_event` builds. -/
structure EventRecord where
  headliner : String
  date : PyDateTime
  venue : Option String
  venue_address : Option String
  openers : List String
  url : Option String
  deriving DecidableEq, Repr

/-- `VENUE_MAP`: badge class name to (display name, address). -/
def VENUE_MAP : List (String × String × String) :=
  [("venue-930-club", "9:30 Club", "815 V St NW, Washington, DC 20001"),
   ("venue-lincoln-theatre", "Lincoln Theatre", "1215 U St NW, Washington, DC 20009"),
   ("venue-the-anthem", "The Anthem", "901 Wharf St SW, Washington, DC 20024"),
   ("venue-merriweather-post-pavilion", "Merriweather Post Pavilion",
    "10475 Little Patuxent Pkwy, Columbia, MD 21044"),
   ("venue-theatlantis", "The Atlantis", "1814 Half St SW, Washington, DC 20024")]

/-- Dictionary lookup `VENUE_MAP[cls]` guarded by `cls in VENUE_MAP`. -/
def venueLookup (cls : String) : Option (String × String) :=
  (VENUE_MAP.find? (fun p => p.1 = cls)).map (fun p => p.2)

/-- The openers line: `re.split(r"[•,&]", text)`, strip each piece, keep the
truthy (non-empty) ones. -/
def splitOpeners (s : String) : List String :=
  ((splitOnSeps s.data).map (fun cs => pyStrip ⟨cs⟩)).filter (fun p => p ≠ "")

/-- The door-time step of `parse_event`: search the `.event__doors` text for
the time pattern; on a hit the passed-on string is `group(1) + " " + group(2)`. -/
def doorTimeOf (ev : EventContent) : Option String :=
  match ev.doors with
  | none => none
  | some e =>
    match timeSearch e.text with
    | none => none
    | some (_, _, g1, g2) => some (g1 ++ " " ++ g2)

/-- The venue step of `parse_event`: from the badge element, the first class
token starting with `venue-`; a known token yields the `VENUE_MAP` entry, an
unknown one title-cases the element's own text (no address). -/
def venueOf (ev : EventContent) : Option String × Option String :=
  match ev.venueBadge with
  | none => (none, none)
  | some e =>
    match e.classes.find? (fun cls => pyStartsWith cls "venue-") with
    | none => (none, none)
    | some cls =>
      match venueLookup cls with
      | some na => (some na.1, some na.2)
      | none => (some (pyTitle e.text), none)

/-- `parse_event(event_element, date_str)`: `none` when the block has no
`h3` or its date cannot be resolved.  The operations performed here are all
total, so the source's catch-all `except` branch is unreachable in the
model. -/
def parse_event (now : PyDateTime) (ev : EventContent) (dateStr : String) :
    Option EventRecord :=
  match ev.h3 with
  | none => none
  | some h3elem =>
    match parse_date now dateStr (doorTimeOf ev) with
    | none => none
    | some d =>
      some { headliner := h3elem.text
             date := d
             venue := (venueOf ev).1
             venue_address := (venueOf ev).2
             openers := match ev.h4 with
               | none => []
               | some e => splitOpeners e.text
             url := ev.aHref }

/-- One `events-group__wrapper`: the `.date-banner__date` query result and
the `.event__content` blocks inside it. -/
structure EventGroup where
  dateBanner : Option Elem
  contents : List EventContent
  deriving DecidableEq, Repr

/-- The per-group body of the `fetch_concerts` loop: skip a group with no
date banner, otherwise parse each block with the group's date label and keep
the successes. -/
def extractGroup (now : PyDateTime) (g : EventGroup) : List EventRecord :=
  match g.dateBanner with
  | none => []
  | some d => g.contents.filterMap (fun ec => parse_event now ec d.text)

/-- The extraction loop of `fetch_concerts` (everything after the black-box
HTTP GET and HTML parse): the concert list accumulated over all groups in
document order. -/
def extract_concerts (now : PyDateTime) (groups : List EventGroup) :
    List EventRecord :=
  (groups.map (extractGroup now)).flatten

/-! ## MD5 (for the Identity Generator)

A direct implementation of RFC 1321 over byte lists, with 32-bit words as
`Nat` reduced modulo `2^32`.  `hashlib.md5(s.encode()).hexdigest()` is
`md5Hex s` below. -/

/-- Reduce to a 32-bit word. -/
def w32 (n : Nat) : Nat := n % 4294967296

/-- Bitwise complement on 32-bit words. -/
def cNot32 (x : Nat) : Nat := 4294967295 ^^^ x

/-- Left rotation of a 32-bit word by `s` (for `0 < s < 32`). -/
def rotl32 (x s : Nat) : Nat := w32 (x <<< s) ||| (x >>> (32 - s))

/-- UTF-8 encoding of one character (`str.encode()`). -/
def utf8Bytes (c : Char) : List Nat :=
  let n := c.toNat
  if n < 128 then [n]
  else if n < 2048 then [192 ||| (n >>> 6), 128 ||| (n &&& 63)]
  else if n < 65536 then
    [224 ||| (n >>> 12), 128 ||| ((n >>> 6) &&& 63), 128 ||| (n &&& 63)]
  else
    [240 ||| (n >>> 18), 128 ||| ((n >>> 12) &&& 63), 128 ||| ((n >>> 6) &&& 63),
     128 ||| (n &&& 63)]

/-- UTF-8 encode a string to its byte list. -/
def strBytes (s : String) : List Nat :=
  s.data.foldr (fun c acc => utf8Bytes c ++ acc) []

/-- The 64 constants `K[i] = floor(2^32 * |sin(i + 1)|)` of RFC 1321. -/
def md5K : List Nat :=
  [0xd76aa478, 0xe8c7b756, 0x242070db, 0xc1bdceee,
   0xf57c0faf, 0x4787c62a, 0xa8304613, 0xfd469501,
   0x698098d8, 0x8b44f7af, 0xffff5bb1, 0x895cd7be,
   0x6b901122, 0xfd987193, 0xa679438e, 0x49b40821,
   0xf61e2562, 0xc040b340, 0x265e5a51, 0xe9b6c7aa,
   0xd62f105d, 0x02441453, 0xd8a1e681, 0xe7d3fbc8,
   0x21e1cde6, 0xc33707d6, 0xf4d50d87, 0x455a14ed,
   0xa9e3e905, 0xfcefa3f8, 0x676f02d9, 0x8d2a4c8a,
   0xfffa3942, 0x8771f681, 0x6d9d6122, 0xfde5380c,
   0xa4beea44, 0x4bdecfa9, 0xf6bb4b60, 0xbebfbc70,
   0x289b7ec6, 0xeaa127fa, 0xd4ef3085, 0x04881d05,
   0xd9d4d039, 0xe6db99e5, 0x1fa27cf8, 0xc4ac5665,
   0xf4292244, 0x432aff97, 0xab9423a7, 0xfc93a039,
   0x655b59c3, 0x8f0ccc92, 0xffeff47d, 0x85845dd1,
   0x6fa87e4f, 0xfe2ce6e0, 0xa3014314, 0x4e0811a1,
   0xf7537e82, 0xbd3af235, 0x2ad7d2bb, 0xeb86d391]

/-- The 64 per-round left-rotation amounts of RFC 1321. -/
def md5S : List Nat :=
  [7, 12, 17, 22, 7, 12, 17, 22, 7, 12, 17, 22, 7, 12, 17, 22,
   5, 9, 14, 20, 5, 9, 14, 20, 5, 9, 14, 20, 5, 9, 14, 20,
   4, 11, 16, 23, 4, 11, 16, 23, 4, 11, 16, 23, 4, 11, 16, 23,
   6, 10, 15, 21, 6, 10, 15, 21, 6, 10, 15, 21, 6, 10, 15, 21]

/-- Round function F (rounds 0–15). -/
def md5F (b c d : Nat) : Nat := (b &&& c) ||| (cNot32 b &&& d)

/-- Round function G (rounds 16–31). -/
def md5G (b c d : Nat) : Nat := (d &&& b) ||| (cNot32 d &&& c)

/-- Round function H (rounds 32–47). -/
def md5H (b c d : Nat) : Nat := b ^^^ c ^^^ d

/-- Round function I (rounds 48–63). -/
def md5I (b c d : Nat) : Nat := c ^^^ (b ||| cNot32 d)

/-- Little-endian 32-bit word `j` of a 64-byte chunk. -/
def chunkWord (chunk : List Nat) (j : Nat) : Nat :=
  chunk.getD (4 * j) 0 + 256 * chunk.getD (4 * j + 1) 0 +
  65536 * chunk.getD (4 * j + 2) 0 + 16777216 * chunk.getD (4 * j + 3) 0

/-- One of the 64 MD5 rounds on the state `(a, b, c, d)`. -/
def md5Round (chunk : List Nat) (st : Nat × Nat × Nat × Nat) (i : Nat) :
    Nat × Nat × Nat × Nat :=
  let a := st.1
  let b := st.2.1
  let c := st.2.2.1
  let d := st.2.2.2
  let f := if i < 16 then md5F b c d
           else if i < 32 then md5G b c d
           else if i < 48 then md5H b c d
           else md5I b c d
  let g := if i < 16 then i
           else if i < 32 then (5 * i + 1) % 16
           else if i < 48 then (3 * i + 5) % 16
           else (7 * i) % 16
  let tmp := w32 (a + f + md5K.getD i 0 + chunkWord chunk g)
  (d, w32 (b + rotl32 tmp (md5S.getD i 0)), b, c)

/-- Process one 64-byte chunk: 64 rounds, then add into the running state. -/
def md5Chunk (st : Nat × Nat × Nat × Nat) (chunk : List Nat) :
    Nat × Nat × Nat × Nat :=
  let r := (List.range 64).foldl (md5Round chunk) st
  (w32 (st.1 + r.1), w32 (st.2.1 + r.2.1), w32 (st.2.2.1 + r.2.2.1),
   w32 (st.2.2.2 + r.2.2.2))

/-- MD5 padding: a `0x80` byte, zeros to 56 mod 64, then the bit length as a
64-bit little-endian quantity. -/
def md5Pad (msg : List Nat) : List Nat :=
  let len := msg.length
  msg ++ (128 :: List.replicate ((119 - len % 64) % 64) 0) ++
    ((List.range 8).map (fun i => ((8 * len) % 18446744073709551616) >>> (8 * i) % 256))

/-- Little-endian byte list of a 32-bit word. -/
def le4 (w : Nat) : List Nat := [w % 256, w >>> 8 % 256, w >>> 16 % 256, w >>> 24 % 256]

/-- The 16 digest bytes of an MD5 computation over a byte list. -/
def md5Bytes (msg : List Nat) : List Nat :=
  let padded := md5Pad msg
  let n := padded.length / 64
  let st := (List.range n).foldl
    (fun st i => md5Chunk st ((padded.drop (64 * i)).take 64))
    (0x67452301, 0xefcdab89, 0x98badcfe, 0x10325476)
  le4 st.1 ++ le4 st.2.1 ++ le4 st.2.2.1 ++ le4 st.2.2.2

/-- Lower-case hexadecimal digit of `n < 16`. -/
def hexDigit (n : Nat) : Char :=
  if n < 10 then Char.ofNat (48 + n) else Char.ofNat (87 + n)

/-- `hashlib.md5(s.encode()).hexdigest()`. -/
def md5Hex (s : String) : String :=
  ⟨(md5Bytes (strBytes s)).foldr
    (fun b acc => hexDigit (b / 16) :: hexDigit (b % 16) :: acc) []⟩

/-! ## The Identity Generator (`generate_uid`) -/

/-- The rendering of `concert.get('venue', '')` inside the f-string of
`generate_uid`.  The `venue` key is always present in the dictionaries
`parse_event` builds, so `dict.get` returns the stored value even when that
value is `None`; the f-string then renders `None` as the four characters
`"None"` (the `''` default is dead). -/
def venueGetStr (v : Option String) : String :=
  match v with
  | some s => s
  | none => "None"

/-- The f-string `f"{headliner}-{date.isoformat()}-{venue}"` of
`generate_uid`. -/
def uidString (c : EventRecord) : String :=
  c.headliner ++ "-" ++ isoformatDC c.date ++ "-" ++ venueGetStr c.venue

/-- `generate_uid(concert)`. -/
def generate_uid (c : EventRecord) : String :=
  md5Hex (uidString c) ++ "@impconcerts"

/-- Modelled from the spec (§4.4 Identity Generator), for comparison with
`generate_uid`: digest of headliner, ISO-8601 date and venue name — the
EMPTY string when the venue is absent — joined by the separator, plus the
fixed suffix. -/
def uidSpec (c : EventRecord) : String :=
  md5Hex (c.headliner ++ "-" ++ isoformatDC c.date ++ "-" ++ c.venue.getD "") ++
    "@impconcerts"

/-! ## The Calendar Builder (`create_calendar`) -/

/-- Truthiness of an optional string, as Python `if venue:` sees it
(`None` and `""` are falsy). -/
def optTruthy (v : Option String) : Bool :=
  match v with
  | some s => s ≠ ""
  | none => false

/-- One VEVENT as `create_calendar` populates it through the `icalendar`
boundary: the fields added by `event.add` calls, `none` for an `add` that is
not executed. -/
structure VEvent where
  summary : String
  dtstart : PyDateTime
  dtend : PyDateTime
  dtstamp : PyDateTime
  location : Option String
  description : Option String
  url : Option String
  uid : String
  deriving DecidableEq, Repr

/-- `concert["date"] + timedelta(hours=3)`: CPython `timedelta` arithmetic
on an aware datetime operates on the wall-clock fields (no timezone
normalization), carrying into day, month and year. -/
def addHours3 (dt : PyDateTime) : PyDateTime :=
  if dt.hour + 3 ≤ 23 then { dt with hour := dt.hour + 3 }
  else if dt.day < daysInMonth dt.year dt.month then
    { dt with day := dt.day + 1, hour := dt.hour + 3 - 24 }
  else if dt.month < 12 then
    { dt with month := dt.month + 1, day := 1, hour := dt.hour + 3 - 24 }
  else
    { dt with year := dt.year + 1, month := 1, day := 1, hour := dt.hour + 3 - 24 }

/-- The body of the per-concert loop of `create_calendar`. -/
def buildEvent (now : PyDateTime) (c : EventRecord) : VEvent :=
  let title := c.headliner ++
    (if c.openers.isEmpty then "" else " (with " ++ joinSep ", " c.openers ++ ")")
  let descriptionParts :=
    (if c.openers.isEmpty then [] else ["With: " ++ joinSep ", " c.openers]) ++
    (match c.venue with
     | some v => if v ≠ "" then ["Venue: " ++ v] else []
     | none => []) ++
    (match c.url with
     | some u => if u ≠ "" then ["Tickets: " ++ u] else []
     | none => [])
  { summary := title
    dtstart := c.date
    dtend := addHours3 c.date
    dtstamp := now
    location :=
      if optTruthy c.venue_address then c.venue_address
      else if optTruthy c.venue then c.venue
      else none
    description :=
      if descriptionParts.isEmpty then none
      else some (joinSep "\n" descriptionParts)
    url := if optTruthy c.url then c.url else none
    uid := generate_uid c }

/-- The calendar-level properties added before the loop, in `cal.add`
order. -/
def calMeta : List (String × String) :=
  [("prodid", "-//IMP Concerts Calendar//impconcerts.com//"),
   ("version", "2.0"),
   ("calscale", "GREGORIAN"),
   ("method", "PUBLISH"),
   ("x-wr-calname", "IMP Concerts"),
   ("x-wr-timezone", "America/New_York")]

/-- The calendar document as `create_calendar` assembles it through the
`icalendar` boundary: the metadata properties and the VEVENT components in
insertion order. -/
structure ICalendar where
  props : List (String × String)
  events : List VEvent
  deriving DecidableEq, Repr

/-- `create_calendar(concerts)`, with `datetime.now(DC_TZ)` (used only for
DTSTAMP) passed in as `now`. -/
def create_calendar (now : PyDateTime) (concerts : List EventRecord) : ICalendar :=
  { props := calMeta
    events := concerts.map (buildEvent now) }

/-! ## A linear time scale, for stating the fixed 3-hour duration -/

/-- Cumulative day counts before each month in a common year. -/
def cumMonthDays : List Nat :=
  [0, 31, 59, 90, 120, 151, 181, 212, 243, 273, 304, 334]

/-- Days from January 1 of the year to the first of month `m` (common-year
table, plus one from March on in leap years). -/
def daysBeforeMonth (y m : Nat) : Nat :=
  cumMonthDays.getD (m - 1) 0 + (if 3 ≤ m ∧ isLeap y = true then 1 else 0)

/-- Rata-die day number of a calendar date (days since the proleptic
Gregorian epoch). -/
def ratadie (y m d : Nat) : Nat :=
  365 * (y - 1) + (y - 1) / 4 - (y - 1) / 100 + (y - 1) / 400 +
    daysBeforeMonth y m + d

/-- Minutes on the linear rata-die scale of a wall-clock datetime. -/
def toAbsMinutes (dt : PyDateTime) : Nat :=
  ratadie dt.year dt.month dt.day * 1440 + dt.hour * 60 + dt.minute

/-! ## Helper lemmas -/

theorem validDate_iff {y m d : Nat} :
    validDate y m d = true ↔
      1 ≤ y ∧ y ≤ 9999 ∧ 1 ≤ m ∧ m ≤ 12 ∧ 1 ≤ d ∧ d ≤ daysInMonth y m := by
  simp [validDate, and_assoc]

theorem uidSuffix_ne_empty (s : String) : s ++ "@impconcerts" ≠ "" := by
  intro h
  have h2 := congrArg String.length h
  rw [String.length_append] at h2
  have h3 : String.length "@impconcerts" = 12 := by decide
  have h4 : String.length "" = 0 := by decide
  omega

theorem daysBeforeMonth_succ (y m : Nat) (h1 : 1 ≤ m) (h2 : m ≤ 11) :
    daysBeforeMonth y (m + 1) = daysBeforeMonth y m + daysInMonth y m := by
  interval_cases m <;> cases hL : isLeap y <;>
    simp [daysBeforeMonth, cumMonthDays, daysInMonth, monthLen, hL]

theorem daysInMonth_twelve (y : Nat) : daysInMonth y 12 = 31 := by
  cases hL : isLeap y <;> simp [daysInMonth, monthLen, hL]

theorem daysBeforeMonth_one (y : Nat) : daysBeforeMonth y 1 = 0 := by
  simp [daysBeforeMonth, cumMonthDays]

theorem daysBeforeMonth_twelve_common (y : Nat) (h : isLeap y = false) :
    daysBeforeMonth y 12 = 334 := by
  simp [daysBeforeMonth, cumMonthDays, h]

theorem daysBeforeMonth_twelve_leap (y : Nat) (h : isLeap y = true) :
    daysBeforeMonth y 12 = 335 := by
  simp [daysBeforeMonth, cumMonthDays, h]

set_option maxHeartbeats 4000000 in
theorem ratadie_year_succ (y : Nat) (h : 1 ≤ y) :
    ratadie (y + 1) 1 1 = ratadie y 12 31 + 1 := by
  cases hL : isLeap y
  · unfold ratadie
    rw [daysBeforeMonth_one, daysBeforeMonth_twelve_common y hL]
    simp [isLeap] at hL
    omega
  · unfold ratadie
    rw [daysBeforeMonth_one, daysBeforeMonth_twelve_leap y hL]
    simp [isLeap] at hL
    omega

theorem parse_date_now_irrel (n1 n2 : PyDateTime) (s : String) (dt : Option String)
    (h4 : (fourDigitSearch (pyStrip s)).isSome = true) :
    parse_date n1 s dt = parse_date n2 s dt := by
  unfold parse_date
  cases h3 : dateTripleSearch (pyStrip s) with
  | none => rfl
  | some t =>
    obtain ⟨w, mn, d⟩ := t
    cases h4' : fourDigitSearch (pyStrip s) with
    | none => rw [h4'] at h4; simp at h4
    | some yy => simp only [resolveYear, h4']

theorem toAbs_addHours3 (dt : PyDateTime)
    (hv : validDate dt.year dt.month dt.day = true) (hh : dt.hour ≤ 23) :
    toAbsMinutes (addHours3 dt) = toAbsMinutes dt + 180 := by
  obtain ⟨h1, h2, h3, h4, h5, h6⟩ := validDate_iff.mp hv
  unfold addHours3
  split
  · simp [toAbsMinutes]
    omega
  · rename_i hgt
    split
    · simp [toAbsMinutes, ratadie]
      omega
    · rename_i hday
      split
      · rename_i hmon
        have hstep := daysBeforeMonth_succ dt.year dt.month h3 (by omega)
        simp [toAbsMinutes, ratadie] at hstep ⊢
        omega
      · rename_i hmon
        have hm : dt.month = 12 := by omega
        have hdim := daysInMonth_twelve dt.year
        rw [hm] at h6 hday
        have hd : dt.day = 31 := by omega
        have hy := ratadie_year_succ dt.year h1
        simp [toAbsMinutes]
        rw [hm, hd]
        omega

theorem mkDatetimeDC_year {y mo d h mi : Nat} {rec : PyDateTime}
    (hp : mkDatetimeDC y mo d h mi = some rec) : rec.year = y := by
  unfold mkDatetimeDC at hp
  split at hp
  · cases hp
    rfl
  · simp at hp

theorem mkDatetimeDC_none_of_invalid {y mo d h mi : Nat}
    (hv : validDate y mo d = false) : mkDatetimeDC y mo d h mi = none := by
  unfold mkDatetimeDC
  rw [hv]
  simp

/-! ## The claims -/

/-- Claim C1, counterexample: a content block whose `h3` element exists but
has empty text produces an event record whose `headliner` is the empty
string (the source checks only for the presence of the element, not for
non-empty text), contradicting the claim that every produced record has a
non-empty headliner. -/
theorem claimC1_cex :
    parse_event ⟨2025, 6, 1, 12, 0, 0, 0⟩
        { h3 := some { text := "", classes := [] }, aHref := none, h4 := none,
          doors := none, venueBadge := none }
        "Thu, Jul 10 2025" =
      some { headliner := "", date := ⟨2025, 7, 10, 20, 0, 0, 0⟩, venue := none,
             venue_address := none, openers := [], url := none } := by
  decide

/-- Claim C1, amended: a block with no heading element produces no record,
a block whose date does not resolve produces no record, and every produced
record's `date` is exactly the resolved date while its `headliner` equals
the heading element's stripped text — which may be empty when the heading
has no text. -/
theorem claimC1 (now : PyDateTime) (ev : EventContent) (dateStr : String) :
    (ev.h3 = none → parse_event now ev dateStr = none) ∧
    (parse_date now dateStr (doorTimeOf ev) = none →
      parse_event now ev dateStr = none) ∧
    (∀ rec, parse_event now ev dateStr = some rec →
      ∃ e, ev.h3 = some e ∧ rec.headliner = e.text ∧
        parse_date now dateStr (doorTimeOf ev) = some rec.date) := by
  refine ⟨fun h => ?_, fun h => ?_, fun rec h => ?_⟩
  · simp [parse_event, h]
  · cases hh : ev.h3 <;> simp [parse_event, hh, h]
  · cases hh : ev.h3 with
    | none => simp [parse_event, hh] at h
    | some e =>
      cases hd : parse_date now dateStr (doorTimeOf ev) with
      | none => simp [parse_event, hh, hd] at h
      | some d =>
        refine ⟨e, rfl, ?_, ?_⟩ <;>
          · simp [parse_event, hh, hd] at h
            simp [← h]

/-- Claim C1, witness for the amended theorem: a block with no `h3` yields
no record, and on the end-to-end example block the produced record's
headliner is the heading text and its date is the resolved date. -/
theorem claimC1_witness :
    parse_event ⟨2025, 6, 1, 12, 0, 0, 0⟩
        { h3 := none, aHref := none, h4 := none, doors := none, venueBadge := none }
        "Thu, Jul 10 2025" = none ∧
    (∃ e, ({ h3 := some { text := "", classes := [] }, aHref := none, h4 := none,
             doors := none, venueBadge := none } : EventContent).h3 = some e ∧
      ({ headliner := "", date := ⟨2025, 7, 10, 20, 0, 0, 0⟩, venue := none,
         venue_address := none, openers := [], url := none } : EventRecord).headliner
          = e.text ∧
      parse_date ⟨2025, 6, 1, 12, 0, 0, 0⟩ "Thu, Jul 10 2025"
          (doorTimeOf { h3 := some { text := "", classes := [] }, aHref := none,
                        h4 := none, doors := none, venueBadge := none }) =
        some ({ headliner := "", date := ⟨2025, 7, 10, 20, 0, 0, 0⟩, venue := none,
                venue_address := none, openers := [], url := none } : EventRecord).date) :=
  ⟨(claimC1 _ _ _).1 rfl, (claimC1 _ _ _).2.2 _ (by decide)⟩

/-- Claim C2: the identifier is the MD5 hex digest of
`headliner-isoformat-venue` plus the suffix `@impconcerts`, BUT for an
absent venue the hashed string renders the stored `None` as the four
characters `None`, not as the empty string the spec prescribes (the `''`
default of `concert.get('venue', '')` is dead because the key is always
present): on a venue-less record the generated identifier differs from the
spec's formula (`uidSpec`), while on a record with a venue the two agree. -/
theorem claimC2 :
    generate_uid { headliner := "A", date := ⟨2025, 7, 10, 19, 0, 0, 0⟩,
                   venue := none, venue_address := none, openers := [], url := none }
        = md5Hex "A-2025-07-10T19:00:00-04:00-None" ++ "@impconcerts" ∧
    uidSpec { headliner := "A", date := ⟨2025, 7, 10, 19, 0, 0, 0⟩,
              venue := none, venue_address := none, openers := [], url := none }
        = md5Hex "A-2025-07-10T19:00:00-04:00-" ++ "@impconcerts" ∧
    generate_uid { headliner := "A", date := ⟨2025, 7, 10, 19, 0, 0, 0⟩,
                   venue := none, venue_address := none, openers := [], url := none }
        ≠ uidSpec { headliner := "A", date := ⟨2025, 7, 10, 19, 0, 0, 0⟩,
                    venue := none, venue_address := none, openers := [], url := none } ∧
    generate_uid { headliner := "A", date := ⟨2025, 7, 10, 19, 0, 0, 0⟩,
                   venue := some "9:30 Club", venue_address := none, openers := [],
                   url := none }
        = uidSpec { headliner := "A", date := ⟨2025, 7, 10, 19, 0, 0, 0⟩,
                    venue := some "9:30 Club", venue_address := none, openers := [],
                    url := none } := by
  refine ⟨rfl, rfl, by decide, rfl⟩

/-- Claim C4: door-time conversion inside `parse_date` — `12:00 am` gives
hour 0, `12:00 pm` gives hour 12, `6:30 pm` gives 18:30, and an absent door
time defaults to 20:00 — shown on a fixed fully-dated label so the result
is independent of the current moment. -/
theorem claimC4 (now : PyDateTime) :
    parse_date now "Thu, Jul 10 2025" (some "12:00 am")
        = some ⟨2025, 7, 10, 0, 0, 0, 0⟩ ∧
    parse_date now "Thu, Jul 10 2025" (some "12:00 pm")
        = some ⟨2025, 7, 10, 12, 0, 0, 0⟩ ∧
    parse_date now "Thu, Jul 10 2025" (some "6:30 pm")
        = some ⟨2025, 7, 10, 18, 30, 0, 0⟩ ∧
    parse_date now "Thu, Jul 10 2025" none
        = some ⟨2025, 7, 10, 20, 0, 0, 0⟩ := by
  have hirr : ∀ dtv, parse_date now "Thu, Jul 10 2025" dtv
      = parse_date ⟨2025, 1, 1, 0, 0, 0, 0⟩ "Thu, Jul 10 2025" dtv :=
    fun dtv => parse_date_now_irrel _ _ _ _ (by decide)
  refine ⟨?_, ?_, ?_, ?_⟩ <;> rw [hirr] <;> decide

/-- Claim C6: the end-to-end scenario — headliner `Band A`, openers heading
`Support One • Support Two`, doors `7:00 pm`, badge `venue-930-club`, label
`Thu, Jul 10 2025` — yields exactly the claimed record (date
2025-07-10T19:00:00-04:00, 9:30 Club and its address, the two openers), and
the calendar entry built from it is titled
`Band A (with Support One, Support Two)` and spans 19:00 to 22:00. -/
theorem claimC6 :
    parse_event ⟨2025, 6, 1, 12, 0, 0, 0⟩
        { h3 := some { text := "Band A", classes := [] },
          aHref := none,
          h4 := some { text := "Support One • Support Two", classes := [] },
          doors := some { text := "Doors: 7:00 pm", classes := [] },
          venueBadge := some { text := "9:30 Club", classes := ["badge", "venue-930-club"] } }
        "Thu, Jul 10 2025" =
      some { headliner := "Band A", date := ⟨2025, 7, 10, 19, 0, 0, 0⟩,
             venue := some "9:30 Club",
             venue_address := some "815 V St NW, Washington, DC 20001",
             openers := ["Support One", "Support Two"], url := none } ∧
    isoformatDC ⟨2025, 7, 10, 19, 0, 0, 0⟩ = "2025-07-10T19:00:00-04:00" ∧
    (buildEvent ⟨2025, 6, 1, 12, 0, 0, 0⟩
        { headliner := "Band A", date := ⟨2025, 7, 10, 19, 0, 0, 0⟩,
          venue := some "9:30 Club",
          venue_address := some "815 V St NW, Washington, DC 20001",
          openers := ["Support One", "Support Two"], url := none }).summary
      = "Band A (with Support One, Support Two)" ∧
    (buildEvent ⟨2025, 6, 1, 12, 0, 0, 0⟩
        { headliner := "Band A", date := ⟨2025, 7, 10, 19, 0, 0, 0⟩,
          venue := some "9:30 Club",
          venue_address := some "815 V St NW, Washington, DC 20001",
          openers := ["Support One", "Support Two"], url := none }).dtstart
      = ⟨2025, 7, 10, 19, 0, 0, 0⟩ ∧
    (buildEvent ⟨2025, 6, 1, 12, 0, 0, 0⟩
        { headliner := "Band A", date := ⟨2025, 7, 10, 19, 0, 0, 0⟩,
          venue := some "9:30 Club",
          venue_address := some "815 V St NW, Washington, DC 20001",
          openers := ["Support One", "Support Two"], url := none }).dtend
      = ⟨2025, 7, 10, 22, 0, 0, 0⟩ := by
  refine ⟨by decide, rfl, rfl, rfl, rfl⟩

/-- Claim C10: a door-time string matching the `H:MM am|pm` pattern whose
24-hour conversion is out of range (`13:00 pm` converts to hour 25) makes
`parse_date` return `none` even for an otherwise valid date label, so the
whole record is discarded — in contrast to an absent door time, which falls
back to the 20:00 default. -/
theorem claimC10 :
    doorTimeOf { h3 := some { text := "Band B", classes := [] }, aHref := none,
                 h4 := none, doors := some { text := "Doors: 13:00 pm", classes := [] },
                 venueBadge := none } = some "13:00 pm" ∧
    parse_date ⟨2025, 6, 1, 12, 0, 0, 0⟩ "Thu, Jul 10 2025" (some "13:00 pm") = none ∧
    parse_event ⟨2025, 6, 1, 12, 0, 0, 0⟩
        { h3 := some { text := "Band B", classes := [] }, aHref := none,
          h4 := none, doors := some { text := "Doors: 13:00 pm", classes := [] },
          venueBadge := none }
        "Thu, Jul 10 2025" = none ∧
    parse_date ⟨2025, 6, 1, 12, 0, 0, 0⟩ "Thu, Jul 10 2025" none
        = some ⟨2025, 7, 10, 20, 0, 0, 0⟩ := by
  refine ⟨rfl, rfl, by decide, rfl⟩

/-- Claim C3: when the stripped date label contains a 4-digit run, that
number is used literally as the year of any resolved date; when it does not,
the resolved year is the current year plus one exactly when the date at
midnight in the current year compares strictly before the current moment,
and the current year otherwise. -/
theorem claimC3 (now : PyDateTime) (dateStr : String) (doorTime : Option String) :
    (∀ y rec, fourDigitSearch (pyStrip dateStr) = some y →
      parse_date now dateStr doorTime = some rec → rec.year = y) ∧
    (∀ w mn d m rec,
      dateTripleSearch (pyStrip dateStr) = some (w, mn, d) →
      fourDigitSearch (pyStrip dateStr) = none →
      monthAbbrev (take3 mn) = some m →
      parse_date now dateStr doorTime = some rec →
      rec.year = if naiveLt ⟨now.year, m, d, 0, 0, 0, 0⟩ now then now.year + 1
                 else now.year) := by
  constructor
  · intro y rec h4 hp
    unfold parse_date at hp
    cases h3 : dateTripleSearch (pyStrip dateStr) with
    | none => simp only [h3] at hp; exact Option.noConfusion hp
    | some t =>
      obtain ⟨w, mn, d⟩ := t
      simp only [h3] at hp
      cases hm : monthAbbrev (take3 mn) with
      | none => simp only [hm] at hp; exact Option.noConfusion hp
      | some month =>
        simp only [hm, resolveYear, h4] at hp
        exact mkDatetimeDC_year hp
  · intro w mn d m rec h3 h4 hm hp
    unfold parse_date at hp
    simp only [h3, hm, resolveYear, h4] at hp
    cases hv : validDate now.year m d
    · rw [hv] at hp
      simp at hp
      rw [mkDatetimeDC_none_of_invalid hv] at hp
      simp at hp
    · rw [hv] at hp
      simp only [Bool.true_and] at hp
      exact mkDatetimeDC_year hp

/-- Claim C3, witness: with the current moment 2025-06-01 12:00, the
year-bearing label `Thu, Jul 10 2025` resolves to year 2025 literally, and
the year-less label `Thu, Jan 15` (a past day) resolves to 2026 via the
roll-forward comparison. -/
theorem claimC3_witness :
    (2025 : Nat) = 2025 ∧
    (2026 : Nat) = if naiveLt ⟨2025, 1, 15, 0, 0, 0, 0⟩ ⟨2025, 6, 1, 12, 0, 0, 0⟩
                   then 2025 + 1 else 2025 :=
  ⟨(claimC3 ⟨2025, 6, 1, 12, 0, 0, 0⟩ "Thu, Jul 10 2025" none).1 2025
      ⟨2025, 7, 10, 20, 0, 0, 0⟩ (by decide) (by decide),
   (claimC3 ⟨2025, 6, 1, 12, 0, 0, 0⟩ "Thu, Jan 15" none).2 "Thu" "Jan" 15 1
      ⟨2026, 1, 15, 20, 0, 0, 0⟩ (by decide) (by decide) (by decide) (by decide)⟩

/-- Claim C5: once the date label has matched the triple pattern, an
unrecognized three-character month prefix makes `parse_date` return `none`,
and so does a month/day combination that is invalid in the resolved year
(such as Feb 30) — no clamping or wrapping. -/
theorem claimC5 (now : PyDateTime) (dateStr : String) (doorTime : Option String)
    (w mn : String) (d : Nat)
    (hTriple : dateTripleSearch (pyStrip dateStr) = some (w, mn, d)) :
    (monthAbbrev (take3 mn) = none → parse_date now dateStr doorTime = none) ∧
    (∀ m, monthAbbrev (take3 mn) = some m →
      validDate (resolveYear now (pyStrip dateStr) mn d) m d = false →
      parse_date now dateStr doorTime = none) := by
  constructor
  · intro hm
    unfold parse_date
    simp only [hTriple, hm]
  · intro m hm hv
    unfold parse_date
    simp only [hTriple, hm]
    exact mkDatetimeDC_none_of_invalid hv

/-- Claim C5, witness: `Sat, Feb 30 2025` (invalid day for February 2025)
and `Thu, Xyz 10 2025` (unrecognized month prefix) both make `parse_date`
return `none`. -/
theorem claimC5_witness :
    parse_date ⟨2025, 6, 1, 12, 0, 0, 0⟩ "Sat, Feb 30 2025" none = none ∧
    parse_date ⟨2025, 6, 1, 12, 0, 0, 0⟩ "Thu, Xyz 10 2025" none = none :=
  ⟨(claimC5 ⟨2025, 6, 1, 12, 0, 0, 0⟩ "Sat, Feb 30 2025" none "Sat" "Feb" 30
      (by decide)).2 2 (by decide) (by decide),
   (claimC5 ⟨2025, 6, 1, 12, 0, 0, 0⟩ "Thu, Xyz 10 2025" none "Thu" "Xyz" 10
      (by decide)).1 (by decide)⟩

/-- Claim C7: `create_calendar` produces one entry per record in input
order (entry `i` is built from record `i`), always carries the fixed
calendar metadata, yields zero entries for the empty batch, and every
entry has a non-empty UID and a title that begins with the record's
headliner text. -/
theorem claimC7 (now : PyDateTime) (concerts : List EventRecord) :
    ((create_calendar now concerts).events.length = concerts.length) ∧
    ((create_calendar now concerts).props = calMeta) ∧
    ((create_calendar now []).events = []) ∧
    (∀ i : Nat, (create_calendar now concerts).events[i]?
        = (concerts[i]?).map (buildEvent now)) ∧
    (∀ c, c ∈ concerts → (buildEvent now c).uid ≠ "" ∧
      ∃ t, (buildEvent now c).summary = c.headliner ++ t) := by
  refine ⟨by simp [create_calendar], rfl, rfl, fun i => by simp [create_calendar],
    fun c hc => ⟨uidSuffix_ne_empty _, ⟨_, rfl⟩⟩⟩

/-- Claim C7, witness: on a one-record batch, the entry built for the
member record has a non-empty UID and a summary extending its headliner. -/
theorem claimC7_witness :
    (buildEvent ⟨2025, 6, 1, 12, 0, 0, 0⟩
        { headliner := "Band A", date := ⟨2025, 7, 10, 19, 0, 0, 0⟩,
          venue := some "9:30 Club",
          venue_address := some "815 V St NW, Washington, DC 20001",
          openers := ["Support One", "Support Two"], url := none }).uid ≠ "" ∧
    ∃ t, (buildEvent ⟨2025, 6, 1, 12, 0, 0, 0⟩
        { headliner := "Band A", date := ⟨2025, 7, 10, 19, 0, 0, 0⟩,
          venue := some "9:30 Club",
          venue_address := some "815 V St NW, Washington, DC 20001",
          openers := ["Support One", "Support Two"], url := none }).summary
      = "Band A" ++ t :=
  (claimC7 ⟨2025, 6, 1, 12, 0, 0, 0⟩
      [{ headliner := "Band A", date := ⟨2025, 7, 10, 19, 0, 0, 0⟩,
         venue := some "9:30 Club",
         venue_address := some "815 V St NW, Washington, DC 20001",
         openers := ["Support One", "Support Two"], url := none }]).2.2.2.2 _
    (List.mem_singleton.mpr rfl)

/-- Claim C8: every calendar entry's end time is its start time (the
record's date) advanced by the wall-clock `timedelta` of 3 hours, and on
the linear minute scale the end is exactly 180 minutes after the start,
for any record whose date is a constructible datetime — independent of any
other source data. -/
theorem claimC8 (now : PyDateTime) (c : EventRecord) :
    (buildEvent now c).dtstart = c.date ∧
    (buildEvent now c).dtend = addHours3 c.date ∧
    (validDate c.date.year c.date.month c.date.day = true → c.date.hour ≤ 23 →
      toAbsMinutes (buildEvent now c).dtend
        = toAbsMinutes (buildEvent now c).dtstart + 180) := by
  refine ⟨rfl, rfl, fun hv hh => ?_⟩
  exact toAbs_addHours3 c.date hv hh

/-- Claim C8, witness: a 23:00 show on 2025-12-31 gets an end time 180
minutes later on the linear scale (rolling into 2026-01-01 02:00). -/
theorem claimC8_witness :
    toAbsMinutes (buildEvent ⟨2025, 6, 1, 12, 0, 0, 0⟩
        { headliner := "X", date := ⟨2025, 12, 31, 23, 0, 0, 0⟩, venue := none,
          venue_address := none, openers := [], url := none }).dtend
      = toAbsMinutes (buildEvent ⟨2025, 6, 1, 12, 0, 0, 0⟩
        { headliner := "X", date := ⟨2025, 12, 31, 23, 0, 0, 0⟩, venue := none,
          venue_address := none, openers := [], url := none }).dtstart + 180 :=
  (claimC8 ⟨2025, 6, 1, 12, 0, 0, 0⟩
      { headliner := "X", date := ⟨2025, 12, 31, 23, 0, 0, 0⟩, venue := none,
        venue_address := none, openers := [], url := none }).2.2
    (by decide) (by decide)

/-- Claim C9: a content block with no heading element yields no record, and
dropping a failing block from a group leaves the extraction result of the
whole batch (any surrounding groups and blocks) unchanged — a single bad
block never aborts the batch or loses other blocks' records. -/
theorem claimC9 (now : PyDateTime) :
    (∀ ev dateStr, ev.h3 = none → parse_event now ev dateStr = none) ∧
    (∀ gs1 gs2 lbl xs ys bad, parse_event now bad lbl.text = none →
      extract_concerts now
          (gs1 ++ { dateBanner := some lbl, contents := xs ++ bad :: ys } :: gs2)
        = extract_concerts now
          (gs1 ++ { dateBanner := some lbl, contents := xs ++ ys } :: gs2)) := by
  constructor
  · intro ev dateStr h
    simp [parse_event, h]
  · intro gs1 gs2 lbl xs ys bad h
    simp [extract_concerts, extractGroup, List.filterMap_append, List.filterMap_cons, h]

/-- Claim C9, witness: a block with no `h3` parses to nothing, and removing
such a block from a one-group batch containing one good block leaves the
extracted records unchanged. -/
theorem claimC9_witness :
    parse_event ⟨2025, 6, 1, 12, 0, 0, 0⟩
        { h3 := none, aHref := none, h4 := none, doors := none, venueBadge := none }
        "Thu, Jul 10 2025" = none ∧
    extract_concerts ⟨2025, 6, 1, 12, 0, 0, 0⟩
        [{ dateBanner := some { text := "Thu, Jul 10 2025", classes := [] },
           contents :=
             [{ h3 := some { text := "Band A", classes := [] }, aHref := none,
                h4 := none, doors := none, venueBadge := none }] ++
             { h3 := none, aHref := none, h4 := none, doors := none,
               venueBadge := none } :: [] }]
      = extract_concerts ⟨2025, 6, 1, 12, 0, 0, 0⟩
        [{ dateBanner := some { text := "Thu, Jul 10 2025", classes := [] },
           contents :=
             [{ h3 := some { text := "Band A", classes := [] }, aHref := none,
                h4 := none, doors := none, venueBadge := none }] ++ [] }] :=
  ⟨(claimC9 ⟨2025, 6, 1, 12, 0, 0, 0⟩).1 _ _ rfl,
   (claimC9 ⟨2025, 6, 1, 12, 0, 0, 0⟩).2 [] []
      { text := "Thu, Jul 10 2025", classes := [] }
      [{ h3 := some { text := "Band A", classes := [] }, aHref := none,
         h4 := none, doors := none, venueBadge := none }] []
      { h3 := none, aHref := none, h4 := none, doors := none, venueBadge := none }
      (by decide)⟩

end IMPCal
